import Mathlib

/-!
Shallow embedding of `travel.py` (zhiweijun1/Travel-Agent): a LangGraph-style
travel agent.  External effects (the SerpAPI search endpoint, the OpenAI chat
model, the Gmail SMTP relay) are modelled as oracle functions passed in as
parameters; exceptions raised by providers are modelled with `Except`, and the
network calls a function performs are returned as an explicit trace of
`NetCall` values alongside its result.
-/

namespace TravelAgent

/-- Input schema of the flights tool (`FlightsInput`, travel.py lines 45-53).
Pydantic `Optional` fields become `Option`; the pydantic defaults are kept as
structure-field defaults. -/
structure FlightsInput where
  departure_airport : Option String := none
  arrival_airport : Option String := none
  outbound_date : Option String := none
  return_date : Option String := none
  adults : Option Int := some 1
  children : Option Int := some 0
  infants_in_seat : Option Int := some 0
  infants_on_lap : Option Int := some 0
deriving Repr, DecidableEq

/-- Input schema of the hotels tool (`HotelsInput`, travel.py lines 89-97). -/
structure HotelsInput where
  q : String
  check_in_date : String
  check_out_date : String
  sort_by : Option String := some "8"
  adults : Option Int := some 1
  children : Option Int := some 0
  rooms : Option Int := some 1
  hotel_class : Option String := none
deriving Repr, DecidableEq

/-- The query dict built by `flights_finder` (travel.py lines 65-80), field for
field.  `stops` is a hardcoded literal in the source, but it is kept as a field
here so that theorems can talk about the value actually sent to the provider. -/
structure FlightQuery where
  api_key : Option String
  engine : String
  hl : String
  gl : String
  departure_id : Option String
  arrival_id : Option String
  outbound_date : Option String
  return_date : Option String
  currency : String
  adults : Option Int
  infants_in_seat : Option Int
  stops : String
  infants_on_lap : Option Int
  children : Option Int
deriving Repr, DecidableEq

/-- The query dict built by `hotels_finder` (travel.py lines 109-123). -/
structure HotelQuery where
  api_key : Option String
  engine : String
  hl : String
  gl : String
  q : String
  check_in_date : String
  check_out_date : String
  currency : String
  adults : Option Int
  children : Option Int
  rooms : Option Int
  sort_by : Option String
  hotel_class : Option String
deriving Repr, DecidableEq

/-- The part of a SerpAPI response the code reads: `search.data` is a dict and
the code indexes `best_flights` (flights) or `properties` (hotels).  `none`
models an absent key, whose access raises `KeyError` inside the `try` block.
Individual flight / property records are opaque to the code, so they are
modelled as strings. -/
structure SerpData where
  best_flights : Option (List String) := none
  properties : Option (List String) := none
deriving Repr, DecidableEq

/-- Result of one tool body: either a structured payload (a Python list) or a
plain string (an error description). -/
inductive ToolOutput where
  | payload (items : List String)
  | text (s : String)
deriving Repr, DecidableEq

/-- A network call made by the code, recorded as a trace entry. -/
inductive NetCall where
  | serp (engine : String)
  | smtp (sender : String) (receiver : String)
deriving Repr, DecidableEq

/-- `str(KeyError(k))` in Python renders as the key in single quotes. -/
def keyErrorText (k : String) : String := "\x27" ++ k ++ "\x27"

/-- The query dict construction in `flights_finder` (travel.py lines 65-80). -/
def mkFlightQuery (apiKey : Option String) (p : FlightsInput) : FlightQuery :=
  { api_key := apiKey
    engine := "google_flights"
    hl := "en"
    gl := "us"
    departure_id := p.departure_airport
    arrival_id := p.arrival_airport
    outbound_date := p.outbound_date
    return_date := p.return_date
    currency := "USD"
    adults := p.adults
    infants_in_seat := p.infants_in_seat
    stops := "1"
    infants_on_lap := p.infants_on_lap
    children := p.children }

/-- The query dict construction in `hotels_finder` (travel.py lines 109-123). -/
def mkHotelQuery (apiKey : Option String) (p : HotelsInput) : HotelQuery :=
  { api_key := apiKey
    engine := "google_hotels"
    hl := "en"
    gl := "us"
    q := p.q
    check_in_date := p.check_in_date
    check_out_date := p.check_out_date
    currency := "USD"
    adults := p.adults
    children := p.children
    rooms := p.rooms
    sort_by := p.sort_by
    hotel_class := p.hotel_class }

/-- `flights_finder` (travel.py lines 58-85): builds the query, calls
`serpapi.search` once, returns `search.data[best_flights]` on success and
`str(e)` on any exception (provider failure or missing key).  The second
component is the trace of network calls made: exactly one search call. -/
def flights_finder (serp : FlightQuery → Except String SerpData)
    (apiKey : Option String) (p : FlightsInput) : ToolOutput × List NetCall :=
  let query := mkFlightQuery apiKey p
  let result :=
    match serp query with
    | Except.ok data =>
      match data.best_flights with
      | some fl => ToolOutput.payload fl
      | none => ToolOutput.text (keyErrorText "best_flights")
    | Except.error e => ToolOutput.text e
  (result, [NetCall.serp "google_flights"])

/-- `hotels_finder` (travel.py lines 102-129): like `flights_finder` but reads
`data[properties][:5]`, i.e. truncates the provider list to its first 5
entries. -/
def hotels_finder (serp : HotelQuery → Except String SerpData)
    (apiKey : Option String) (p : HotelsInput) : ToolOutput × List NetCall :=
  let query := mkHotelQuery apiKey p
  let result :=
    match serp query with
    | Except.ok data =>
      match data.properties with
      | some props => ToolOutput.payload (props.take 5)
      | none => ToolOutput.text (keyErrorText "properties")
    | Except.error e => ToolOutput.text e
  (result, [NetCall.serp "google_hotels"])

/-- Argument bag of a tool call.  The LangChain `args_schema` wrappers
(`FlightsInputSchema` / `HotelsInputSchema`) validate the dict into one of the
two typed inputs; `other` stands for an argument dict that fits neither. -/
inductive ToolArgs where
  | flights (params : FlightsInput)
  | hotels (params : HotelsInput)
  | other (raw : String)
deriving Repr, DecidableEq

/-- One entry of `message.tool_calls`: request id, tool name, argument bag. -/
structure ToolCall where
  id : String
  name : String
  args : ToolArgs
deriving Repr, DecidableEq

/-- The LangChain message variants that appear in `AgentState.messages`:
`HumanMessage`, `SystemMessage`, the model output (`AIMessage`, carrying
`tool_calls`) and `ToolMessage` (carrying `tool_call_id`, `name`, content). -/
inductive Message where
  | human (content : String)
  | system (content : String)
  | ai (content : String) (tool_calls : List ToolCall)
  | tool (tool_call_id : String) (name : String) (content : String)
deriving Repr, DecidableEq

/-- The `content` attribute, present on every message variant. -/
def Message.content : Message → String
  | Message.human c => c
  | Message.system c => c
  | Message.ai c _ => c
  | Message.tool _ _ c => c

/-- The keys of `self.tools = {t.name: t for t in TOOLS}` with
`TOOLS = [flights_finder, hotels_finder]` (travel.py lines 132, 141). -/
def toolNames : List String := ["flights_finder", "hotels_finder"]

/-- `str(...)` applied to a tool result in `invoke_tools` (travel.py line 182):
a string renders as itself, a Python list renders bracketed and
comma-separated. -/
def renderOutput : ToolOutput → String
  | ToolOutput.text s => s
  | ToolOutput.payload items => "[" ++ String.intercalate ", " items ++ "]"

/-- The external dependencies of the agent: the SerpAPI endpoint (one oracle
per engine-specific query shape) and the `SERPAPI_API_KEY` environment
variable. -/
structure Providers where
  serpFlights : FlightQuery → Except String SerpData
  serpHotels : HotelQuery → Except String SerpData
  apiKey : Option String

/-- One iteration of the `for t in message.tool_calls` body of
`Agent.invoke_tools` (travel.py lines 174-183): unknown names yield a
`ToolMessage` with content `"Bad tool name"` and no network call; known names
dispatch to the registered tool and stringify its result.  `none` models the
pydantic validation exception raised when the argument bag does not fit the
named tool's schema. -/
def invokeOne (pv : Providers) (t : ToolCall) : Option (Message × List NetCall) :=
  if t.name ∈ toolNames then
    match t.name, t.args with
    | "flights_finder", ToolArgs.flights p =>
      some (Message.tool t.id t.name
              (renderOutput (flights_finder pv.serpFlights pv.apiKey p).1),
            (flights_finder pv.serpFlights pv.apiKey p).2)
    | "hotels_finder", ToolArgs.hotels p =>
      some (Message.tool t.id t.name
              (renderOutput (hotels_finder pv.serpHotels pv.apiKey p).1),
            (hotels_finder pv.serpHotels pv.apiKey p).2)
    | _, _ => none
  else
    some (Message.tool t.id t.name "Bad tool name", [])

/-- The results list built by `Agent.invoke_tools` (travel.py lines 171-184):
one `ToolMessage` appended per tool call, in request order, together with the
concatenated network-call trace.  `none` propagates a raised exception. -/
def invoke_tools (pv : Providers) : List ToolCall → Option (List Message × List NetCall)
  | [] => some ([], [])
  | t :: ts =>
    match invokeOne pv t with
    | none => none
    | some (m, calls) =>
      match invoke_tools pv ts with
      | none => none
      | some (ms, cs) => some (m :: ms, calls ++ cs)

/-- `Agent.invoke_tools` as a node: reads `state["messages"][-1].tool_calls`
(travel.py line 172); a last message that is not an `AIMessage` has no
`tool_calls` attribute, which raises (`none`). -/
def invoke_toolsState (pv : Providers) (msgs : List Message) :
    Option (List Message × List NetCall) :=
  match msgs.getLast? with
  | some (Message.ai _ tcs) => invoke_tools pv tcs
  | _ => none

/-- `Agent.conditions` (travel.py lines 158-164): inspects the last message and
routes to `"email_sender"` when it has no tool calls, else `"more_tools"`.
`none` models the attribute error on a message without `tool_calls`. -/
def conditions (msgs : List Message) : Option String :=
  match msgs.getLast? with
  | some (Message.ai _ tcs) =>
    some (if tcs.length = 0 then "email_sender" else "more_tools")
  | _ => none

/-- `TOOLS_SYSTEM_PROMPT` (travel.py lines 31-42), an f-string over
`CURRENT_YEAR`. -/
def toolsSystemPrompt (year : Nat) : String :=
  "You are a smart travel agency. Use the tools to look up information.\n" ++
  "You are allowed to make multiple calls (either together or in sequence).\n" ++
  "Only look up information when you are sure of what you want.\n" ++
  "The current year is " ++ toString year ++
  ". If you don\x27t get flights, try searching till you find them!\n" ++
  "If you need to look up some information before asking a follow up question, you are allowed to do that!\n" ++
  "In your output, include links to hotel websites and flight websites (if possible),\n" ++
  "the logo of the hotel and the logo of the airline company (if possible),\n" ++
  "and always include both the price of the flight and the price of the hotel (with currency).\n" ++
  "For example, for hotels:\n    Rate: $581 per night\n    Total: $3,488\n"

/-- What one call of the bound chat model returns: text plus tool calls. -/
structure ReasoningOut where
  content : String
  tool_calls : List ToolCall
deriving Repr, DecidableEq

/-- `Agent.call_tools_llm` (travel.py lines 166-169): prepends the system
prompt, invokes the model once, and returns the single-message delta appended
to the state. -/
def call_tools_llm (llm : List Message → ReasoningOut) (year : Nat)
    (msgs : List Message) : List Message :=
  let out := llm (Message.system (toolsSystemPrompt year) :: msgs)
  [Message.ai out.content out.tool_calls]

/-- Outcome of running the compiled graph from entry point `call_tools_llm`:
`paused` is the interrupt before the `email_sender` node (the
AWAITING_APPROVAL pause), `crashed` models an uncaught exception, and
`outOfFuel` truncates the (unbounded in the source) loop. -/
inductive LoopResult where
  | paused (msgs : List Message) (trace : List NetCall)
  | crashed (msgs : List Message) (trace : List NetCall)
  | outOfFuel (msgs : List Message) (trace : List NetCall)
deriving Repr, DecidableEq

/-- The orchestration loop of the compiled graph (travel.py lines 143-156):
entry `call_tools_llm`, conditional edge by `Agent.conditions` mapping
`"email_sender"` to the interrupt before `email_sender` and `"more_tools"` to
`invoke_tools`, whose results feed back into `call_tools_llm`. -/
def runLoop (llm : List Message → ReasoningOut) (pv : Providers) (year : Nat) :
    Nat → List Message → List NetCall → LoopResult
  | 0, msgs, tr => LoopResult.outOfFuel msgs tr
  | Nat.succ fuel, msgs, tr =>
    let msgs1 := msgs ++ call_tools_llm llm year msgs
    if conditions msgs1 = some "email_sender" then LoopResult.paused msgs1 tr
    else if conditions msgs1 = some "more_tools" then
      match invoke_toolsState pv msgs1 with
      | some (results, calls) =>
        runLoop llm pv year fuel (msgs1 ++ results) (tr ++ calls)
      | none => LoopResult.crashed msgs1 tr
    else LoopResult.crashed msgs1 tr

/-- Control state of a stored session: RUNNING while the graph is between
nodes, AWAITING_APPROVAL at the interrupt before `email_sender`, TERMINATED
after `email_sender` has run to END. -/
inductive Phase where
  | running
  | awaitingApproval
  | terminated
deriving Repr, DecidableEq

/-- A checkpointed session: transcript plus control state. -/
structure Session where
  messages : List Message
  phase : Phase
deriving Repr, DecidableEq

/-- The `MemorySaver` checkpointer keyed by `thread_id` (travel.py line 155). -/
abbrev Store := List (String × Session)

/-- `Agent.email_sender` (travel.py lines 185-186): returns an empty message
delta. -/
def email_sender (_msgs : List Message) : List Message := []

/-- Resuming a checkpointed session past the interrupt (LangGraph semantics of
the graph built in travel.py lines 143-156): a session paused at
AWAITING_APPROVAL runs `email_sender`, appends its (empty) delta and reaches
END, i.e. TERMINATED; other sessions are unchanged.  No function in travel.py
ever performs this resume. -/
def resumeSession (s : Session) : Session :=
  match s.phase with
  | Phase.awaitingApproval =>
    { messages := s.messages ++ email_sender s.messages, phase := Phase.terminated }
  | _ => s

/-- The email message assembled by `send_html_email` (travel.py lines
194-200). -/
structure EmailMsg where
  fromAddr : String
  toAddr : String
  subject : String
  htmlBody : String
deriving Repr, DecidableEq

/-- `send_html_email` (travel.py lines 192-210): builds a MIME message,
connects to the Gmail relay, logs in with the `GMAIL_APP_PASSWORD` environment
variable and sends; every exception in the `try` block (relay failure or a
missing password variable) is caught and rendered as
`"Error sending email: ..."`.  The relay oracle covers connect, STARTTLS,
login and sendmail; the trace records that a connection was attempted. -/
def send_html_email (relay : EmailMsg → String → Except String Unit)
    (gmailPassword : Option String)
    (travel_html sender receiver subject : String) : String × List NetCall :=
  let msg : EmailMsg :=
    { fromAddr := sender, toAddr := receiver, subject := subject, htmlBody := travel_html }
  let status :=
    match gmailPassword with
    | none => "Error sending email: " ++ keyErrorText "GMAIL_APP_PASSWORD"
    | some pw =>
      match relay msg pw with
      | Except.ok _ => "Email sent successfully via Gmail SMTP!"
      | Except.error e => "Error sending email: " ++ e
  (status, [NetCall.smtp sender receiver])

/-- `process_query_gradio` (travel.py lines 216-226): fresh thread id, one
`HumanMessage`, run the graph; at the interrupt the checkpointer holds the
session and the last message's content is returned.  The session store is
threaded explicitly to expose the checkpointer state. -/
def process_query_gradio (llm : List Message → ReasoningOut) (pv : Providers)
    (year : Nat) (fuel : Nat) (threadId : String) (userQuery : String)
    (store : Store) : Store × Option String :=
  match runLoop llm pv year fuel [Message.human userQuery] [] with
  | LoopResult.paused ms _ =>
    ((threadId, { messages := ms, phase := Phase.awaitingApproval }) :: store,
     (ms.getLast?).map Message.content)
  | LoopResult.crashed _ _ => (store, none)
  | LoopResult.outOfFuel _ _ => (store, none)

/-- `process_email_gradio` (travel.py lines 229-236): if any of the four
fields is empty return the validation error, else call `send_html_email`.  The
session store is threaded explicitly to expose that this function neither
reads nor writes any session: it never resumes the paused graph. -/
def process_email_gradio (relay : EmailMsg → String → Except String Unit)
    (gmailPassword : Option String)
    (travel_info sender receiver subject : String) (store : Store) :
    Store × String × List NetCall :=
  if sender = "" ∨ receiver = "" ∨ subject = "" ∨ travel_info = "" then
    (store, "Error: All fields are required.", [])
  else
    (store, send_html_email relay gmailPassword travel_info sender receiver subject)

/-- Transcript matching checker: `scanM pending msgs` threads the list of
request ids still awaiting their `ToolMessage`.  A reasoning output may only
appear when nothing is pending (every earlier request was answered before the
next reasoning step), and each `ToolMessage` must answer the first pending
request (results in request order, exactly one per request). -/
def scanM : List String → List Message → Option (List String)
  | pending, [] => some pending
  | pending, Message.human _ :: rest =>
    if pending = [] then scanM pending rest else none
  | pending, Message.system _ :: rest =>
    if pending = [] then scanM pending rest else none
  | pending, Message.ai _ tcs :: rest =>
    if pending = [] then scanM (tcs.map ToolCall.id) rest else none
  | pending, Message.tool cid _ _ :: rest =>
    if pending.head? = some cid then scanM (pending.drop 1) rest else none

/-- The request id a message answers: `some` exactly for `ToolMessage`s. -/
def resultId : Message → Option String
  | Message.tool cid _ _ => some cid
  | _ => none

/-- Concrete provider fixture: the flight endpoint raises, the hotel endpoint
returns eight properties. -/
def pv0 : Providers :=
  { serpFlights := fun _ => Except.error "boom"
    serpHotels := fun _ =>
      Except.ok { best_flights := none
                  properties := some ["h1", "h2", "h3", "h4", "h5", "h6", "h7", "h8"] }
    apiKey := some "KEY" }

/-- Concrete model fixture: always answers with text and no tool calls. -/
def llm0 : List Message → ReasoningOut :=
  fun _ => { content := "done", tool_calls := [] }

/-- Concrete relay fixture: delivery always succeeds. -/
def relay0 : EmailMsg → String → Except String Unit := fun _ _ => Except.ok ()

/-- Concrete hotel-tool input fixture. -/
def hIn0 : HotelsInput :=
  { q := "New York", check_in_date := "2025-06-10", check_out_date := "2025-06-15" }

/-- Concrete flight-tool input fixture. -/
def fIn0 : FlightsInput :=
  { departure_airport := some "JFK", arrival_airport := some "LHR"
    outbound_date := some "2025-06-10", return_date := some "2025-06-15" }

/-! ## Helper lemmas -/

/-- Appending a conversation suffix threads the pending-request state. -/
theorem scanM_append (xs : List Message) :
    ∀ (p : List String) (ys : List Message),
      scanM p (xs ++ ys) = (scanM p xs).bind fun q => scanM q ys := by
  induction xs with
  | nil => intro p ys; simp [scanM]
  | cons m rest ih =>
    intro p ys
    cases m with
    | human c =>
      simp only [List.cons_append, scanM]
      split <;> simp [ih]
    | system c =>
      simp only [List.cons_append, scanM]
      split <;> simp [ih]
    | ai c tcs =>
      simp only [List.cons_append, scanM]
      split <;> simp [ih]
    | tool cid n c =>
      simp only [List.cons_append, scanM]
      split <;> simp [ih]

/-- Every successful `invokeOne` yields a `ToolMessage` answering exactly the
request id it was given. -/
theorem invokeOne_shape (pv : Providers) (t : ToolCall) (m : Message)
    (calls : List NetCall) (h : invokeOne pv t = some (m, calls)) :
    ∃ content, m = Message.tool t.id t.name content := by
  unfold invokeOne at h
  split at h
  · split at h
    · simp only [Option.some.injEq, Prod.mk.injEq] at h
      exact ⟨_, h.1.symm⟩
    · simp only [Option.some.injEq, Prod.mk.injEq] at h
      exact ⟨_, h.1.symm⟩
    · exact absurd h (by simp)
  · simp only [Option.some.injEq, Prod.mk.injEq] at h
    exact ⟨_, h.1.symm⟩

/-- The results of `invoke_tools`, positionally: one `ToolMessage` per request,
carrying the request ids in request order. -/
theorem invoke_tools_ids (pv : Providers) :
    ∀ (tcs : List ToolCall) (rs : List Message) (cs : List NetCall),
      invoke_tools pv tcs = some (rs, cs) →
      rs.map resultId = tcs.map (fun t => some t.id) := by
  intro tcs
  induction tcs with
  | nil =>
    intro rs cs h
    simp only [invoke_tools, Option.some.injEq, Prod.mk.injEq] at h
    simp [← h.1]
  | cons t ts ih =>
    intro rs cs h
    unfold invoke_tools at h
    cases h1 : invokeOne pv t with
    | none => rw [h1] at h; simp at h
    | some mc =>
      rw [h1] at h
      cases h2 : invoke_tools pv ts with
      | none => rw [h2] at h; simp at h
      | some pr =>
        rw [h2] at h
        simp only [Option.some.injEq, Prod.mk.injEq] at h
        obtain ⟨c0, hm⟩ := invokeOne_shape pv t mc.1 mc.2 (by rw [h1])
        have := ih pr.1 pr.2 (by rw [h2])
        rw [← h.1]
        simp [hm, resultId, this]

/-- The results block of `invoke_tools` consumes exactly the pending requests,
in order. -/
theorem invoke_tools_scanM (pv : Providers) :
    ∀ (tcs : List ToolCall) (rs : List Message) (cs : List NetCall),
      invoke_tools pv tcs = some (rs, cs) →
      ∀ q, scanM (tcs.map ToolCall.id ++ q) rs = some q := by
  intro tcs
  induction tcs with
  | nil =>
    intro rs cs h q
    simp only [invoke_tools, Option.some.injEq, Prod.mk.injEq] at h
    simp [← h.1, scanM]
  | cons t ts ih =>
    intro rs cs h q
    unfold invoke_tools at h
    cases h1 : invokeOne pv t with
    | none => rw [h1] at h; simp at h
    | some mc =>
      rw [h1] at h
      cases h2 : invoke_tools pv ts with
      | none => rw [h2] at h; simp at h
      | some pr =>
        rw [h2] at h
        simp only [Option.some.injEq, Prod.mk.injEq] at h
        obtain ⟨c0, hm⟩ := invokeOne_shape pv t mc.1 mc.2 (by rw [h1])
        have hrec := ih pr.1 pr.2 (by rw [h2]) q
        rw [← h.1]
        simp [hm, scanM, hrec]

/-- Routing after the reasoning node: `conditions` on a transcript ending in
the freshly appended `AIMessage`. -/
theorem conditions_concat (msgs : List Message) (c : String) (tcs : List ToolCall) :
    conditions (msgs ++ [Message.ai c tcs]) =
      some (if tcs.length = 0 then "email_sender" else "more_tools") := by
  simp [conditions, List.getLast?_concat]

/-- Invariant preservation: if the loop starts from a transcript with no
pending requests and pauses, the paused transcript has no pending requests and
ends in a reasoning output with zero tool calls. -/
theorem runLoop_paused (llm : List Message → ReasoningOut) (pv : Providers)
    (year : Nat) :
    ∀ (fuel : Nat) (msgs : List Message) (tr : List NetCall)
      (ms : List Message) (tr2 : List NetCall),
      runLoop llm pv year fuel msgs tr = LoopResult.paused ms tr2 →
      scanM [] msgs = some [] →
      scanM [] ms = some [] ∧ ∃ c, ms.getLast? = some (Message.ai c []) := by
  intro fuel
  induction fuel with
  | zero =>
    intro msgs tr ms tr2 h hscan
    simp [runLoop] at h
  | succ n ih =>
    intro msgs tr ms tr2 h hscan
    rw [runLoop] at h
    simp only [call_tools_llm] at h
    by_cases h0 :
        (llm (Message.system (toolsSystemPrompt year) :: msgs)).tool_calls.length = 0
    · rw [conditions_concat] at h
      rw [if_pos h0] at h
      rw [if_pos rfl] at h
      have htcs : (llm (Message.system (toolsSystemPrompt year) :: msgs)).tool_calls = [] :=
        List.length_eq_zero.mp h0
      injection h with h' h''
      refine ⟨?_, ?_⟩
      · rw [← h', scanM_append, hscan]
        simp [scanM, htcs]
      · exact ⟨_, by rw [← h', htcs, List.getLast?_concat]⟩
    · rw [conditions_concat] at h
      rw [if_neg h0] at h
      rw [if_neg (by simp)] at h
      rw [if_pos rfl] at h
      simp only [invoke_toolsState, List.getLast?_concat] at h
      cases hres :
          invoke_tools pv
            (llm (Message.system (toolsSystemPrompt year) :: msgs)).tool_calls with
      | none => rw [hres] at h; simp at h
      | some pr =>
        rw [hres] at h
        apply ih _ _ _ _ h
        rw [scanM_append, scanM_append, hscan]
        simp only [Option.some_bind]
        have h1 : scanM []
            [Message.ai (llm (Message.system (toolsSystemPrompt year) :: msgs)).content
              (llm (Message.system (toolsSystemPrompt year) :: msgs)).tool_calls] =
            some ((llm (Message.system (toolsSystemPrompt year) :: msgs)).tool_calls.map
              ToolCall.id) := by
          simp [scanM]
        rw [h1]
        simp only [Option.some_bind]
        have h2 := invoke_tools_scanM pv _ pr.1 pr.2 (by rw [hres]) []
        rw [List.append_nil] at h2
        exact h2

/-! ## Claims -/

/-- C1: The orchestration loop transitions to the AWAITING_APPROVAL pause (the
interrupt before the `email_sender` node) if and only if the most recent
reasoning output carries zero tool calls, and never while unresolved tool
requests remain in the transcript tail: (1) `conditions` routes to
`"email_sender"` iff the last message has no tool calls; (2) a reasoning
output with no tool calls makes the loop pause at once; (3) every paused
transcript ends in a reasoning output with zero tool calls and has no pending
requests (`scanM` state empty). -/
theorem claim_c1_awaiting_approval_iff :
    (∀ (msgs : List Message) (c : String) (tcs : List ToolCall),
       msgs.getLast? = some (Message.ai c tcs) →
       (conditions msgs = some "email_sender" ↔ tcs = [])) ∧
    (∀ (llm : List Message → ReasoningOut) (pv : Providers) (year fuel : Nat)
       (msgs : List Message) (tr : List NetCall),
       (llm (Message.system (toolsSystemPrompt year) :: msgs)).tool_calls = [] →
       runLoop llm pv year (fuel + 1) msgs tr =
         LoopResult.paused
           (msgs ++
             [Message.ai
               (llm (Message.system (toolsSystemPrompt year) :: msgs)).content []])
           tr) ∧
    (∀ (llm : List Message → ReasoningOut) (pv : Providers) (year fuel : Nat)
       (msgs : List Message) (tr : List NetCall) (ms : List Message)
       (tr2 : List NetCall),
       scanM [] msgs = some [] →
       runLoop llm pv year fuel msgs tr = LoopResult.paused ms tr2 →
       scanM [] ms = some [] ∧ ∃ c, ms.getLast? = some (Message.ai c [])) := by
  refine ⟨?_, ?_, ?_⟩
  · intro msgs c tcs hl
    unfold conditions
    rw [hl]
    show some (if tcs.length = 0 then "email_sender" else "more_tools") =
        some "email_sender" ↔ tcs = []
    by_cases htcs : tcs.length = 0
    · simp [htcs, List.length_eq_zero.mp htcs]
    · refine iff_of_false (fun h => ?_) (fun he => htcs (by simp [he]))
      rw [if_neg htcs] at h
      exact absurd (Option.some.inj h) (by decide)
  · intro llm pv year fuel msgs tr h
    rw [runLoop]
    simp [call_tools_llm, h, conditions_concat]
  · intro llm pv year fuel msgs tr ms tr2 hscan h
    exact runLoop_paused llm pv year fuel msgs tr ms tr2 h hscan

/-- C1 witness: a transcript ending in a reasoning output with zero tool calls
routes to the approval pause. -/
theorem claim_c1_witness :
    conditions [Message.ai "done" []] = some "email_sender" :=
  (claim_c1_awaiting_approval_iff.1 [Message.ai "done" []] "done" [] rfl).mpr rfl

/-- C2: Each tool request of a reasoning output is answered, before the next
reasoning-step invocation, by exactly one tool result with the same request
id, appended in request order: (1) the results of `invoke_tools` carry the
request ids positionally in request order; (2) the results block consumes
exactly the pending requests (`scanM`); (3) in the loop, the results are
appended right after the reasoning output, before the next iteration. -/
theorem claim_c2_tool_results_match :
    ∀ (pv : Providers) (tcs : List ToolCall) (rs : List Message)
      (cs : List NetCall),
      invoke_tools pv tcs = some (rs, cs) →
      rs.map resultId = tcs.map (fun t => some t.id) ∧
      scanM (tcs.map ToolCall.id) rs = some [] ∧
      (∀ (llm : List Message → ReasoningOut) (year fuel : Nat)
         (msgs : List Message) (tr : List NetCall),
         (llm (Message.system (toolsSystemPrompt year) :: msgs)).tool_calls = tcs →
         tcs ≠ [] →
         runLoop llm pv year (fuel + 1) msgs tr =
           runLoop llm pv year fuel
             ((msgs ++
                 [Message.ai
                   (llm (Message.system (toolsSystemPrompt year) :: msgs)).content
                   tcs]) ++ rs)
             (tr ++ cs)) := by
  intro pv tcs rs cs h
  refine ⟨invoke_tools_ids pv tcs rs cs h, ?_, ?_⟩
  · have h2 := invoke_tools_scanM pv tcs rs cs h []
    rwa [List.append_nil] at h2
  · intro llm year fuel msgs tr hllm hne
    rw [runLoop]
    simp only [call_tools_llm, hllm]
    rw [conditions_concat]
    have hlen : ¬ tcs.length = 0 := fun h0 => hne (List.length_eq_zero.mp h0)
    rw [if_neg (by simp [hlen]), if_pos (by simp [hlen])]
    simp only [invoke_toolsState, List.getLast?_concat, h]

/-- C2 witness: one flight-tool request gets exactly one matching tool result
carrying its request id. -/
theorem claim_c2_witness :
    invoke_tools pv0 [{ id := "c1", name := "flights_finder", args := ToolArgs.flights fIn0 }] =
      some ([Message.tool "c1" "flights_finder" "boom"], [NetCall.serp "google_flights"]) ∧
    [Message.tool "c1" "flights_finder" "boom"].map resultId = [some "c1"] :=
  ⟨rfl,
   (claim_c2_tool_results_match pv0
     [{ id := "c1", name := "flights_finder", args := ToolArgs.flights fIn0 }]
     [Message.tool "c1" "flights_finder" "boom"]
     [NetCall.serp "google_flights"] rfl).1⟩

/-- C3: The hotel tool returns at most 5 property entries — when the provider
returns a property list the adapter keeps only its first 5 — while flight
results are passed through unmodified. -/
theorem claim_c3_hotel_truncation :
    ∀ (serpH : HotelQuery → Except String SerpData)
      (serpF : FlightQuery → Except String SerpData)
      (key : Option String) (ph : HotelsInput) (pf : FlightsInput),
      (∀ l, (hotels_finder serpH key ph).1 = ToolOutput.payload l → l.length ≤ 5) ∧
      (∀ d props, serpH (mkHotelQuery key ph) = Except.ok d →
        d.properties = some props →
        (hotels_finder serpH key ph).1 = ToolOutput.payload (props.take 5)) ∧
      (∀ d fl, serpF (mkFlightQuery key pf) = Except.ok d →
        d.best_flights = some fl →
        (flights_finder serpF key pf).1 = ToolOutput.payload fl) := by
  intro serpH serpF key ph pf
  refine ⟨?_, ?_, ?_⟩
  · intro l hl
    simp only [hotels_finder] at hl
    split at hl
    · split at hl
      · simp only [ToolOutput.payload.injEq] at hl
        rw [← hl]
        simp only [List.length_take]
        exact Nat.min_le_left _ _
      · exact absurd hl (by simp)
    · exact absurd hl (by simp)
  · intro d props hq hp
    simp only [hotels_finder, hq, hp]
  · intro d fl hq hf
    simp only [flights_finder, hq, hf]

/-- C3 witness: a provider list of 8 properties yields exactly the first 5. -/
theorem claim_c3_witness :
    pv0.serpHotels (mkHotelQuery pv0.apiKey hIn0) =
      Except.ok { best_flights := none
                  properties := some ["h1", "h2", "h3", "h4", "h5", "h6", "h7", "h8"] } ∧
    (hotels_finder pv0.serpHotels pv0.apiKey hIn0).1 =
      ToolOutput.payload (["h1", "h2", "h3", "h4", "h5", "h6", "h7", "h8"].take 5) ∧
    (["h1", "h2", "h3", "h4", "h5", "h6", "h7", "h8"].take 5).length = 5 :=
  ⟨rfl,
   (claim_c3_hotel_truncation pv0.serpHotels pv0.serpFlights pv0.apiKey hIn0 fIn0).2.1
     _ _ rfl rfl,
   by decide⟩

/-- C4: A tool request with an unregistered name gets a tool result with the
fixed text `"Bad tool name"` for its request id, and no network call is made
for that request (empty trace). -/
theorem claim_c4_bad_tool_name :
    ∀ (pv : Providers) (t : ToolCall), t.name ∉ toolNames →
      invokeOne pv t = some (Message.tool t.id t.name "Bad tool name", []) := by
  intro pv t h
  unfold invokeOne
  rw [if_neg h]

/-- C4 witness: the unregistered name `"weather"` yields the fixed text and an
empty network trace. -/
theorem claim_c4_witness :
    ("weather" ∉ toolNames) ∧
    invokeOne pv0 { id := "x1", name := "weather", args := ToolArgs.other "z" } =
      some (Message.tool "x1" "weather" "Bad tool name", []) :=
  ⟨by decide, claim_c4_bad_tool_name pv0 _ (by decide)⟩

/-- C5: If the provider call raises, the tool returns the exception text as
its result instead of raising — and for registered tools with well-typed
arguments `invokeOne` always returns a message (never propagates an
exception), so a provider failure cannot crash the loop. -/
theorem claim_c5_provider_error_text :
    ∀ (serpF : FlightQuery → Except String SerpData)
      (serpH : HotelQuery → Except String SerpData)
      (key : Option String) (pf : FlightsInput) (ph : HotelsInput) (e : String),
      (serpF (mkFlightQuery key pf) = Except.error e →
        (flights_finder serpF key pf).1 = ToolOutput.text e) ∧
      (serpH (mkHotelQuery key ph) = Except.error e →
        (hotels_finder serpH key ph).1 = ToolOutput.text e) ∧
      (∀ (pv : Providers) (i : String),
        (invokeOne pv { id := i, name := "flights_finder", args := ToolArgs.flights pf }).isSome = true ∧
        (invokeOne pv { id := i, name := "hotels_finder", args := ToolArgs.hotels ph }).isSome = true) := by
  intro serpF serpH key pf ph e
  refine ⟨?_, ?_, ?_⟩
  · intro h
    simp only [flights_finder, h]
  · intro h
    simp only [hotels_finder, h]
  · intro pv i
    constructor <;> simp [invokeOne, toolNames]

/-- C5 witness: a flight provider failure with message `"boom"` surfaces as
the inert text `"boom"`. -/
theorem claim_c5_witness :
    pv0.serpFlights (mkFlightQuery pv0.apiKey fIn0) = Except.error "boom" ∧
    (flights_finder pv0.serpFlights pv0.apiKey fIn0).1 = ToolOutput.text "boom" :=
  ⟨rfl,
   (claim_c5_provider_error_text pv0.serpFlights pv0.serpHotels pv0.apiKey fIn0 hIn0
     "boom").1 rfl⟩

/-- C6: The email-send operation with any one of the four fields empty returns
the validation error text and performs zero network calls. -/
theorem claim_c6_email_validation :
    ∀ (relay : EmailMsg → String → Except String Unit) (pw : Option String)
      (ti s r subj : String) (store : Store),
      (s = "" ∨ r = "" ∨ subj = "" ∨ ti = "") →
      process_email_gradio relay pw ti s r subj store =
        (store, "Error: All fields are required.", []) := by
  intro relay pw ti s r subj store h
  unfold process_email_gradio
  rw [if_pos h]

/-- C6 witness: the spec scenario — empty receiver — returns the validation
error with an empty network trace. -/
theorem claim_c6_witness :
    (("a@x.com" : String) = "" ∨ ("" : String) = "" ∨ ("S" : String) = "" ∨
      ("body" : String) = "") ∧
    process_email_gradio relay0 (some "pw") "body" "a@x.com" "" "S" [] =
      ([], "Error: All fields are required.", []) :=
  ⟨Or.inr (Or.inl rfl),
   claim_c6_email_validation relay0 (some "pw") "body" "a@x.com" "" "S" []
     (Or.inr (Or.inl rfl))⟩

/-- C7: `send_html_email` always returns a status string: either the success
text, or the failure (relay error or missing password variable) rendered with
the `"Error sending email: "` prefix — never an uncaught exception. -/
theorem claim_c7_send_email_total :
    ∀ (relay : EmailMsg → String → Except String Unit) (pw : Option String)
      (ti s r subj : String),
      (send_html_email relay pw ti s r subj).1 =
        "Email sent successfully via Gmail SMTP!" ∨
      ∃ e, (send_html_email relay pw ti s r subj).1 = "Error sending email: " ++ e := by
  intro relay pw ti s r subj
  cases pw with
  | none => exact Or.inr ⟨keyErrorText "GMAIL_APP_PASSWORD", rfl⟩
  | some p =>
    cases h : relay { fromAddr := s, toAddr := r, subject := subj, htmlBody := ti } p with
    | ok u => exact Or.inl (by simp only [send_html_email, h])
    | error e => exact Or.inr ⟨e, by simp only [send_html_email, h]⟩

/-- C8 counterexample: a session paused at AWAITING_APPROVAL, then the
approval action (the email send) — the session store is left untouched and the
stored session is still AWAITING_APPROVAL, not TERMINATED. -/
theorem claim_c8_counterexample :
    (process_email_gradio relay0 (some "pw") "info" "a@x.com" "b@x.com" "S"
        (process_query_gradio llm0 pv0 2025 5 "t1" "plan a trip" []).1).1 =
      (process_query_gradio llm0 pv0 2025 5 "t1" "plan a trip" []).1 ∧
    (List.lookup "t1"
        (process_email_gradio relay0 (some "pw") "info" "a@x.com" "b@x.com" "S"
          (process_query_gradio llm0 pv0 2025 5 "t1" "plan a trip" []).1).1).map
        Session.phase = some Phase.awaitingApproval ∧
    ¬ (List.lookup "t1"
        (process_email_gradio relay0 (some "pw") "info" "a@x.com" "b@x.com" "S"
          (process_query_gradio llm0 pv0 2025 5 "t1" "plan a trip" []).1).1).map
        Session.phase = some Phase.terminated :=
  ⟨rfl, rfl, by decide⟩

/-- C8 (amended): when the loop pauses, the session is retained in the store
keyed by its thread id with phase AWAITING_APPROVAL; but the approval action
(`process_email_gradio`) never touches the store — resuming the stored session
through the graph's `email_sender` transition would move it to TERMINATED, and
no code in the repository performs that resume. -/
theorem claim_c8_session_retained :
    ∀ (llm : List Message → ReasoningOut) (pv : Providers) (year fuel : Nat)
      (tid q : String) (store : Store) (ms : List Message) (tr : List NetCall),
      runLoop llm pv year fuel [Message.human q] [] = LoopResult.paused ms tr →
      List.lookup tid (process_query_gradio llm pv year fuel tid q store).1 =
        some { messages := ms, phase := Phase.awaitingApproval } ∧
      (∀ (relay : EmailMsg → String → Except String Unit) (pw : Option String)
         (ti s r subj : String) (store2 : Store),
         (process_email_gradio relay pw ti s r subj store2).1 = store2) ∧
      resumeSession { messages := ms, phase := Phase.awaitingApproval } =
        { messages := ms, phase := Phase.terminated } := by
  intro llm pv year fuel tid q store ms tr h
  refine ⟨?_, ?_, ?_⟩
  · unfold process_query_gradio
    rw [h]
    simp [List.lookup]
  · intro relay pw ti s r subj store2
    unfold process_email_gradio
    split <;> rfl
  · unfold resumeSession
    simp [email_sender]

/-- C8 witness: a concrete query pauses and its session is found in the store
under its thread id, paused at AWAITING_APPROVAL. -/
theorem claim_c8_witness :
    List.lookup "t1" (process_query_gradio llm0 pv0 2025 5 "t1" "plan a trip" []).1 =
      some { messages := [Message.human "plan a trip", Message.ai "done" []]
             phase := Phase.awaitingApproval } :=
  (claim_c8_session_retained llm0 pv0 2025 5 "t1" "plan a trip" []
    [Message.human "plan a trip", Message.ai "done" []] [] rfl).1

/-- C9: The `email_sender` node is a no-op with respect to the transcript — it
appends no messages, and resuming through it leaves the transcript unchanged;
it takes no relay oracle, so no email transmission happens inside the state
machine. -/
theorem claim_c9_email_sender_noop :
    ∀ (msgs : List Message) (s : Session),
      email_sender msgs = [] ∧ (resumeSession s).messages = s.messages := by
  intro msgs s
  refine ⟨rfl, ?_⟩
  unfold resumeSession
  cases s with
  | mk ms ph => cases ph <;> simp [email_sender]

/-- C10: Every flight-search query sent to the provider carries the hardcoded
field `stops = "1"`, independently of the caller's arguments (the input schema
has no stops field), so the result of `flights_finder` only depends on the
provider's behaviour at queries with `stops = "1"`. -/
theorem claim_c10_flight_stops_hardcoded :
    ∀ (key : Option String) (p p2 : FlightsInput),
      (mkFlightQuery key p).stops = "1" ∧
      (mkFlightQuery key p).stops = (mkFlightQuery key p2).stops ∧
      (∀ (serp serp2 : FlightQuery → Except String SerpData),
        (∀ q, q.stops = "1" → serp q = serp2 q) →
        flights_finder serp key p = flights_finder serp2 key p) := by
  intro key p p2
  refine ⟨rfl, rfl, ?_⟩
  intro serp serp2 hagree
  simp only [flights_finder, hagree (mkFlightQuery key p) rfl]

/-- C10 witness: the agreement hypothesis holds trivially for the fixture
provider against itself, and the conclusion instantiates. -/
theorem claim_c10_witness :
    (∀ q, q.stops = "1" → pv0.serpFlights q = pv0.serpFlights q) ∧
    flights_finder pv0.serpFlights pv0.apiKey fIn0 =
      flights_finder pv0.serpFlights pv0.apiKey fIn0 :=
  ⟨fun _ _ => rfl,
   (claim_c10_flight_stops_hardcoded pv0.apiKey fIn0 fIn0).2.2 pv0.serpFlights
     pv0.serpFlights (fun _ _ => rfl)⟩

end TravelAgent
